import Mathlib

/-!
Verification of the `appflow_tracer` logging/tracing core of the
`emvaldes/azure-profiles` repository.

The Python modules under `packages/appflow_tracer/lib/` are embedded
shallowly: each Python function becomes an executable Lean definition,
Python runtime exceptions become an explicit `PyError` and results live in
`Except PyError`, Python `None`-able values become `Option`, and the
observable writes of the logging functions (file sink, console sink)
become an explicit list of `Effect`s.
-/

namespace AzProfiles

/-- Equality of embedded results (`Except`) is decidable, so concrete claim
instances can be settled by evaluation. -/
instance {ε α : Type} [DecidableEq ε] [DecidableEq α] : DecidableEq (Except ε α) := fun a b =>
  match a, b with
  | .ok x, .ok y =>
      if h : x = y then isTrue (by rw [h]) else isFalse (by simp [h])
  | .error e, .error f =>
      if h : e = f then isTrue (by rw [h]) else isFalse (by simp [h])
  | .ok _, .error _ => isFalse (by simp)
  | .error _, .ok _ => isFalse (by simp)

/-- Python runtime exceptions that the embedded functions can raise. -/
inductive PyError
  | nameError (n : String)
  | keyError (k : String)
  | attributeError (a : String)
  | typeError (t : String)
  | valueError (v : String)
deriving DecidableEq, Repr

/-- Characters treated as whitespace by Python's `str.strip()`. -/
def pyIsSpaceChar (c : Char) : Bool :=
  c = ' ' || c = '\t' || c = '\n' || c = '\x0d' || c = '\x0b' || c = '\x0c'

/-- Embedding of Python's `str.strip()`: drop leading and trailing whitespace. -/
def pyStrip (s : String) : String :=
  String.mk (((s.toList.dropWhile pyIsSpaceChar).reverse.dropWhile pyIsSpaceChar).reverse)

/-- Python's `s.startswith(p)` (defined over character lists so that concrete
instances evaluate inside the kernel). -/
def pyStartsWith (s p : String) : Bool := p.toList.isPrefixOf s.toList

/-- Python's `s.endswith(p)`. -/
def pyEndsWith (s p : String) : Bool := p.toList.reverse.isPrefixOf s.toList.reverse

/-- Left-to-right, non-overlapping replacement of every occurrence of `pat`
(non-empty) by `rep`, as in Python's `s.replace(pat, rep)`; the fuel is the
input length, which bounds the recursion. -/
def pyReplaceAux (pat rep : List Char) : Nat → List Char → List Char
  | 0, cs => cs
  | _, [] => []
  | fuel + 1, c :: rest =>
    if pat.isPrefixOf (c :: rest) then
      rep ++ pyReplaceAux pat rep fuel ((c :: rest).drop pat.length)
    else c :: pyReplaceAux pat rep fuel rest

/-- Python's `s.replace(pat, rep)` for a non-empty pattern. -/
def pyReplace (s pat rep : String) : String :=
  String.mk (pyReplaceAux pat.toList rep.toList s.length s.toList)

/-- Python's `s.split("/")`: split on every slash, keeping empty pieces. -/
def pySplitSlashAux : List Char → List Char → List String
  | [], acc => [String.mk acc.reverse]
  | c :: rest, acc =>
    if c = '/' then String.mk acc.reverse :: pySplitSlashAux rest []
    else pySplitSlashAux rest (c :: acc)

/-- Python's `s.split("/")` on a string. -/
def pySplitSlash (s : String) : List String := pySplitSlashAux s.toList []

/-- ASCII upper-casing of one character. -/
def pyUpperChar (c : Char) : Char :=
  if 'a' ≤ c && c ≤ 'z' then Char.ofNat (c.toNat - 32) else c

/-- Python's `s.upper()` (the category names the code upper-cases are ASCII). -/
def pyToUpper (s : String) : String := String.mk (s.toList.map pyUpperChar)

/-- JSON-serializable Python values (the payloads the logging core passes to
`json.dumps`): `None`, booleans, integers, strings, lists and dicts. -/
inductive Json
  | null
  | bool (b : Bool)
  | num (n : Int)
  | str (s : String)
  | arr (xs : List Json)
  | obj (kvs : List (String × Json))
deriving Repr

/-- Python truthiness of a JSON-like value (`if json_data:`). -/
def pyTruthy : Json → Bool
  | .null => false
  | .bool b => b
  | .num n => decide (n ≠ 0)
  | .str s => decide (s ≠ "")
  | .arr xs => !xs.isEmpty
  | .obj kvs => !kvs.isEmpty

/-- JSON string escaping as performed by `json.dumps(..., ensure_ascii=False)`:
quote, backslash and the common control characters are escaped, everything
else (including non-ASCII) is kept verbatim. -/
def jsonEscapeChar (c : Char) : String :=
  if c = '"' then "\\\""
  else if c = '\\' then "\\\\"
  else if c = '\n' then "\\n"
  else if c = '\t' then "\\t"
  else if c = '\x0d' then "\\r"
  else String.singleton c

/-- A JSON string literal: `"` + escaped contents + `"`. -/
def jsonQuote (s : String) : String :=
  "\"" ++ String.join (s.toList.map jsonEscapeChar) ++ "\""

mutual

/-- Single-line `json.dumps` with explicit item and key separators
(`json.dumps(x, separators=(isep, ksep))`; the stdlib default is
`isep = ", "`, `ksep = ": "`). -/
def jsonDumpsSep (isep ksep : String) : Json → String
  | .null => "null"
  | .bool true => "true"
  | .bool false => "false"
  | .num n => toString n
  | .str s => jsonQuote s
  | .arr xs => "[" ++ jsonDumpsSepList isep ksep xs ++ "]"
  | .obj kvs => "\x7b" ++ jsonDumpsSepObj isep ksep kvs ++ "\x7d"

/-- Array elements joined by the item separator. -/
def jsonDumpsSepList (isep ksep : String) : List Json → String
  | [] => ""
  | [x] => jsonDumpsSep isep ksep x
  | x :: y :: xs => jsonDumpsSep isep ksep x ++ isep ++ jsonDumpsSepList isep ksep (y :: xs)

/-- Object entries `key ksep value` joined by the item separator. -/
def jsonDumpsSepObj (isep ksep : String) : List (String × Json) → String
  | [] => ""
  | [kv] => jsonQuote kv.1 ++ ksep ++ jsonDumpsSep isep ksep kv.2
  | kv :: kv2 :: kvs =>
      jsonQuote kv.1 ++ ksep ++ jsonDumpsSep isep ksep kv.2 ++ isep ++
        jsonDumpsSepObj isep ksep (kv2 :: kvs)

end

/-- `json.dumps(x, separators=(",", ":"))`: the compact form used by
`log_message` when `serialize_json` is true. -/
def jsonDumpsCompact (j : Json) : String := jsonDumpsSep "," ":" j

/-- `json.dumps(x)` with the stdlib default separators (no indent), as used by
`safe_serialize` when `verbose` is false. -/
def jsonDumpsDefault (j : Json) : String := jsonDumpsSep ", " ": " j

/-- A run of `n` spaces, for the `indent=2` pretty printer. -/
def spaces (n : Nat) : String := String.mk (List.replicate n ' ')

mutual

/-- `json.dumps(x, indent=2)` at nesting level `lvl`: containers open on their
own line, entries are indented by two further spaces and joined by `",\n"`,
and the closing bracket returns to the enclosing indentation. -/
def jsonDumpsInd2 (lvl : Nat) : Json → String
  | .null => "null"
  | .bool true => "true"
  | .bool false => "false"
  | .num n => toString n
  | .str s => jsonQuote s
  | .arr [] => "[]"
  | .arr (x :: xs) =>
      "[\n" ++ jsonDumpsInd2List (lvl + 1) (x :: xs) ++ "\n" ++ spaces (2 * lvl) ++ "]"
  | .obj [] => "\x7b\x7d"
  | .obj (kv :: kvs) =>
      "\x7b\n" ++ jsonDumpsInd2Obj (lvl + 1) (kv :: kvs) ++ "\n" ++ spaces (2 * lvl) ++ "\x7d"

/-- Indented array elements joined by `",\n"`. -/
def jsonDumpsInd2List (lvl : Nat) : List Json → String
  | [] => ""
  | [x] => spaces (2 * lvl) ++ jsonDumpsInd2 lvl x
  | x :: y :: xs =>
      spaces (2 * lvl) ++ jsonDumpsInd2 lvl x ++ ",\n" ++ jsonDumpsInd2List lvl (y :: xs)

/-- Indented object entries joined by `",\n"`. -/
def jsonDumpsInd2Obj (lvl : Nat) : List (String × Json) → String
  | [] => ""
  | [kv] => spaces (2 * lvl) ++ jsonQuote kv.1 ++ ": " ++ jsonDumpsInd2 lvl kv.2
  | kv :: kv2 :: kvs =>
      spaces (2 * lvl) ++ jsonQuote kv.1 ++ ": " ++ jsonDumpsInd2 lvl kv.2 ++ ",\n" ++
        jsonDumpsInd2Obj lvl (kv2 :: kvs)

end

mutual

/-- Python's `str()`/`repr()` rendering of a JSON-like value, as interpolated
by an f-string (`None`/`True`/`False`, single-quoted strings, `[...]` lists
and `{...}` dicts).  Escaping inside string contents is not modelled; the
payloads the claims exercise contain no quotes or control characters. -/
def pyRepr : Json → String
  | .null => "None"
  | .bool true => "True"
  | .bool false => "False"
  | .num n => toString n
  | .str s => "'" ++ s ++ "'"
  | .arr xs => "[" ++ pyReprList xs ++ "]"
  | .obj kvs => "\x7b" ++ pyReprObj kvs ++ "\x7d"

/-- List elements joined by `", "` in Python `repr` form. -/
def pyReprList : List Json → String
  | [] => ""
  | [x] => pyRepr x
  | x :: y :: xs => pyRepr x ++ ", " ++ pyReprList (y :: xs)

/-- Dict entries `'key': value` joined by `", "` in Python `repr` form. -/
def pyReprObj : List (String × Json) → String
  | [] => ""
  | [kv] => "'" ++ kv.1 ++ "': " ++ pyRepr kv.2
  | kv :: kv2 :: kvs =>
      "'" ++ kv.1 ++ "': " ++ pyRepr kv.2 ++ ", " ++ pyReprObj (kv2 :: kvs)

end

/-! ### Configuration records

A `configs` dictionary as consumed by `log_utils` / `trace_utils` /
`file_utils`.  Each dictionary key that the code reads is an `Option` field:
`none` models an absent key, and the embeddings raise `KeyError` exactly
where Python's `configs[...]` subscripting would, while `.get(k, d)`
lookups become `Option.getD`. -/

/-- The `configs["logging"]` sub-dictionary (the fields the embedded code reads). -/
structure LoggingCfg where
  package_name : Option String
  module_name : Option String
  enable : Option Bool
  max_logfiles : Option Nat
deriving DecidableEq, Repr

/-- The `configs["tracing"]` sub-dictionary. -/
structure TracingCfg where
  enable : Option Bool
deriving DecidableEq, Repr

/-- A whole `configs` dictionary: `logging`, `tracing` and `colors` keys. -/
structure Configs where
  logging : Option LoggingCfg
  tracing : Option TracingCfg
  colors : Option (List (String × String))
deriving DecidableEq, Repr

/-- Python `dict.get(k)` on a string-to-string dict modelled as an assoc list. -/
def lookupStr (kvs : List (String × String)) (k : String) : Option String :=
  (kvs.find? (fun kv => kv.1 = k)).map (fun kv => kv.2)

/-- Observable writes of the logging core: a line appended to the log-file
sink (`logger.info` inside `output_logfile`) or a line printed to the
console sink (`print` inside `output_console`). -/
inductive Effect
  | fileSink (line : String)
  | consoleSink (line : String)
deriving DecidableEq, Repr

/-- Does an effect list write to the log-file sink? -/
def hasFileSink (effs : List Effect) : Bool :=
  effs.any fun e => match e with | .fileSink _ => true | .consoleSink _ => false

/-- Does an effect list write to the console sink? -/
def hasConsoleSink (effs : List Effect) : Bool :=
  effs.any fun e => match e with | .fileSink _ => false | .consoleSink _ => true

/-- The `json_data` argument of `log_message` as the callers pass it: either a
dict-like structured payload or an already-rendered string
(`trace_events` passes `safe_serialize` output and `"[Unserializable data]"`
as strings). -/
inductive JsonData
  | dict (j : Json)
  | str (s : String)
deriving Repr

/-- The `json_data` value at the moment it reaches the output helpers, after
`log_message` optionally replaced the dict by its compact JSON dump: a dict
(`Sum.inl`) or a string (`Sum.inr`).  A `none` models the falsy values that
`json_data or False` collapses to `False`. -/
def JsonPayload : Type := Sum Json String

/-- Embedding of `log_utils.output_logfile`: append the message, plus
`f"\n{json_data}"` when a truthy payload is present, to the logger's file. -/
def output_logfile (message : String) (json_data : Option JsonPayload) : Effect :=
  .fileSink (match json_data with
    | none => message
    | some (.inl j) => message ++ "\n" ++ pyRepr j
    | some (.inr s) => message ++ "\n" ++ s)

/-- Embedding of `log_utils.output_console`: print the message wrapped in the
category's color (falling back to `RESET` when the category has no entry or
the entry is not an ANSI escape), then print the payload — strings as-is,
dicts pretty-printed with `json.dumps(..., indent=2)`.  Python evaluates the
`.get` default `configs["colors"]["RESET"]` eagerly, so a missing `RESET`
entry raises `KeyError` regardless of the category. -/
def output_console (message category : String) (json_data : Option JsonPayload)
    (configs : Configs) : Except PyError (List Effect) :=
  match configs.colors with
  | none => .error (.keyError "colors")
  | some colors =>
    match lookupStr colors "RESET" with
    | none => .error (.keyError "RESET")
    | some reset =>
      let color := (lookupStr colors (pyToUpper category)).getD reset
      let color := if pyStartsWith color "\x1b" then color else reset
      let console_message := color ++ message ++ reset
      .ok ([Effect.consoleSink console_message] ++
        (match json_data with
          | none => []
          | some (.inr s) => [Effect.consoleSink s]
          | some (.inl j) => [Effect.consoleSink (jsonDumpsInd2 0 j)]))

/-- The payload `log_message` hands to the sinks: a truthy `json_data` is
replaced by its compact JSON dump when `serialize_json` is true, and the
sinks receive `json_data or False`, so falsy payloads become `none`. -/
def logPayload (json_data : Option JsonData) (serialize_json : Bool) :
    Option JsonPayload :=
  match json_data with
  | none => none
  | some (.dict j) =>
      if pyTruthy j then
        some (if serialize_json then .inr (jsonDumpsCompact j) else .inl j)
      else none
  | some (.str s) =>
      if s ≠ "" then
        some (if serialize_json then .inr (jsonQuote s) else .inr s)
      else none

/-- Embedding of `log_utils.log_message`.

`configs = configs or CONFIGS` falls back to a module-global `CONFIGS`, but
`log_utils.py` never defines one and no caller injects one, so a missing
(or falsy) `configs` argument raises `NameError`.  Building the logger name
subscripts `configs['logging']['package_name']` / `['module_name']`, raising
`KeyError` on absent keys.  The file sink is guarded by
`configs["logging"].get("enable", False) and not
configs["tracing"].get("enable", False)` — Python's `and` short-circuits, so
`configs["tracing"]` is only subscripted (possibly raising `KeyError`) when
the logging flag is truthy — and the console stanza subscripts
`configs["tracing"]` unconditionally.  Both sinks additionally require
`message.strip()` to be non-empty. -/
def log_message (message : String) (category : String)
    (json_data : Option JsonData) (serialize_json : Bool)
    (configs : Option Configs) : Except PyError (List Effect) :=
  match configs with
  | none => .error (.nameError "CONFIGS")
  | some cfg =>
    match cfg.logging with
    | none => .error (.keyError "logging")
    | some lg =>
      match lg.package_name, lg.module_name with
      | none, _ => .error (.keyError "package_name")
      | some _, none => .error (.keyError "module_name")
      | some _, some _ =>
        let payload := logPayload json_data serialize_json
        let fileStep : Except PyError (List Effect) :=
          if lg.enable.getD false then
            match cfg.tracing with
            | none => .error (.keyError "tracing")
            | some tr =>
              if !tr.enable.getD false && pyStrip message ≠ "" then
                .ok [output_logfile message payload]
              else .ok []
          else .ok []
        match fileStep with
        | .error e => .error e
        | .ok fileEffs =>
          match cfg.tracing with
          | none => .error (.keyError "tracing")
          | some tr =>
            if tr.enable.getD false then
              if pyStrip message ≠ "" then
                match output_console message category payload cfg with
                | .error e => .error e
                | .ok consoleEffs => .ok (fileEffs ++ consoleEffs)
              else .ok fileEffs
            else .ok fileEffs

/-! ### serialize_utils: safe_serialize -/

/-- A Python value handed to `safe_serialize`: a string (returned verbatim by
the `isinstance(data, str)` branch), a JSON-serializable value, or a value
whose top-level `json.dumps(..., default=str)` call raises even with the
`default` hook — a self-referential container (`ValueError: Circular
reference detected`) or a dict with non-string keys (`TypeError`).  The
`unser` constructor carries the value's `str()` rendering. -/
inductive PyValue
  | str (s : String)
  | json (j : Json)
  | unser (reprStr : String)
deriving Repr

/-- Python's `str()` of a `PyValue`. -/
def pyStrOf : PyValue → String
  | .str s => s
  | .json j => pyRepr j
  | .unser r => r

/-- Python's `type(x).__name__` for a `PyValue` (the `unser` values the claims
use are self-referential lists). -/
def pyTypeName : PyValue → String
  | .str _ => "str"
  | .json .null => "NoneType"
  | .json (.bool _) => "bool"
  | .json (.num _) => "int"
  | .json (.str _) => "str"
  | .json (.arr _) => "list"
  | .json (.obj _) => "dict"
  | .unser _ => "list"

/-- The top-level `json.dumps(data, indent=2 if verbose else None, default=str,
ensure_ascii=False)` call inside `safe_serialize`: succeeds on strings and
JSON values, raises on `unser` values. -/
def jsonDumpsPy (data : PyValue) (verbose : Bool) : Except PyError String :=
  match data with
  | .str s => .ok (if verbose then jsonDumpsInd2 0 (.str s) else jsonDumpsDefault (.str s))
  | .json j => .ok (if verbose then jsonDumpsInd2 0 j else jsonDumpsDefault j)
  | .unser _ => .error (.valueError "Circular reference detected")

/-- Embedding of `serialize_utils.safe_serialize`: strings are returned as-is;
otherwise the value is encoded with `json.dumps`; if the encode raises
`TypeError`/`ValueError` the except-branch returns `str(data)` when
`verbose` is true and the `"[Unserializable data]"` sentinel otherwise. -/
def safe_serialize (data : PyValue) (verbose : Bool) : String :=
  match data with
  | .str s => s
  | _ =>
    match jsonDumpsPy data verbose with
    | .ok s => s
    | .error _ => if verbose then pyStrOf data else "[Unserializable data]"

/-! ### serialize_utils: sanitize_token_string

`sanitize_token_string` iterates over `tokenize.generate_tokens` of the
line.  The model reproduces the token streams Python's tokenizer emits for
single-line inputs without string literals (the only inputs the code feeds
it): an `INDENT` for leading whitespace on a code line, `NAME` / `NUMBER` /
single-character `OP` tokens, a `COMMENT` running to the end of the line,
then `NEWLINE` (code lines) or `NL` (comment-only lines), a matching
`DEDENT`, and a final `ENDMARKER`.  Whitespace-only input yields just the
`ENDMARKER`. -/

/-- Python token categories used by `sanitize_token_string`. -/
inductive TokType
  | indent | dedent | name | number | op | comment | newline | nl | endmarker
deriving DecidableEq, Repr

/-- A token: its category and its `token.string`. -/
structure Tok where
  type : TokType
  string : String
deriving DecidableEq, Repr

/-- Is this character an identifier start (`[A-Za-z_]`)? -/
def isIdentStart (c : Char) : Bool := c.isAlpha || c = '_'

/-- Is this character an identifier continuation (`[A-Za-z0-9_]`)? -/
def isIdentChar (c : Char) : Bool := c.isAlpha || c.isDigit || c = '_'

/-- Tokenize the body of a code line into `NAME` / `NUMBER` / `OP` / `COMMENT`
tokens, skipping blanks; a `#` starts a comment that runs to the end of the
line.  The `fuel` parameter makes the recursion structural (each step
consumes at least one character, so `cs.length` fuel always suffices). -/
def lexBodyAux : Nat → List Char → List Tok
  | 0, _ => []
  | _, [] => []
  | fuel + 1, c :: rest =>
    if c = ' ' || c = '\t' then lexBodyAux fuel rest
    else if c = '\n' then []
    else if c = '#' then [⟨.comment, String.mk ((c :: rest).takeWhile (fun d => d ≠ '\n'))⟩]
    else if isIdentStart c then
      ⟨.name, String.mk (c :: rest.takeWhile isIdentChar)⟩ ::
        lexBodyAux fuel (rest.dropWhile isIdentChar)
    else if c.isDigit then
      ⟨.number, String.mk (c :: rest.takeWhile Char.isDigit)⟩ ::
        lexBodyAux fuel (rest.dropWhile Char.isDigit)
    else ⟨.op, String.singleton c⟩ :: lexBodyAux fuel rest

/-- Tokenize a full line body. -/
def lexBody (cs : List Char) : List Tok := lexBodyAux cs.length cs

/-- Model of `tokenize.generate_tokens(StringIO(line).readline)` for a single
line: leading indentation produces an `INDENT`/`DEDENT` pair around code
lines, comment-only lines produce `COMMENT` + `NL`, whitespace-only input
produces only the `ENDMARKER`, and code lines end with `NEWLINE` (whose
string is the trailing `"\n"` when the line has one, `""` otherwise). -/
def generate_tokens (line : String) : List Tok :=
  let cs := line.toList
  let ws := cs.takeWhile (fun c => c = ' ' || c = '\t')
  let body := cs.dropWhile (fun c => c = ' ' || c = '\t')
  let content := body.takeWhile (fun c => c ≠ '\n')
  if content.isEmpty then [⟨.endmarker, ""⟩]
  else if content.head? = some '#' then
    [⟨.comment, String.mk content⟩, ⟨.nl, ""⟩, ⟨.endmarker, ""⟩]
  else
    (if ws.isEmpty then [] else [⟨.indent, String.mk ws⟩]) ++
    lexBody content ++
    [⟨.newline, if body.contains '\n' then "\n" else ""⟩] ++
    (if ws.isEmpty then [] else [⟨.dedent, ""⟩]) ++
    [⟨.endmarker, ""⟩]

/-- The `new_line` accumulator of `sanitize_token_string`.  It starts as a
Python list but is rebound to a string by the `"".join(new_line).strip()`
statement that sits inside the token loop, so from the second iteration on
it is a `str`. -/
inductive PyStrList
  | list (items : List String)
  | str (s : String)
deriving DecidableEq, Repr

/-- Python's `"".join(x)`: concatenates a list's items; joining a string
re-concatenates its characters, yielding the string itself. -/
def pyJoin : PyStrList → String
  | .list items => String.join items
  | .str s => s

/-- Python's `x.append(s)`: extends a list, but raises `AttributeError` when
`x` has been rebound to a `str`. -/
def pyAppend (x : PyStrList) (s : String) : Except PyError PyStrList :=
  match x with
  | .list items => .ok (.list (items ++ [s]))
  | .str _ => .error (.attributeError "append")

/-- The result of `sanitize_token_string`: normally a string, but the
`break` on a leading `COMMENT` token returns the still-unjoined `new_line`
list (the empty Python list `[]`, which is not equal to `""`). -/
inductive SanitizeResult
  | str (s : String)
  | list (items : List String)
deriving DecidableEq, Repr

/-- The token loop of `sanitize_token_string`: stop at the first `COMMENT`
(returning the accumulator as-is), append a space between adjacent
`NAME`/`NUMBER` tokens, append the token text, and rebind the accumulator to
`"".join(new_line).strip()` at the end of each iteration.  Any raised
`AttributeError` propagates to the enclosing `try`. -/
def sanitizeLoop : List Tok → PyStrList → Bool → Except PyError PyStrList
  | [], new_line, _ => .ok new_line
  | t :: ts, new_line, last_token_was_name =>
    if t.type = .comment then .ok new_line
    else
      match (if last_token_was_name && (t.type = .name || t.type = .number) then
               pyAppend new_line " " else .ok new_line) with
      | .error e => .error e
      | .ok nl1 =>
        match pyAppend nl1 t.string with
        | .error e => .error e
        | .ok nl2 =>
          sanitizeLoop ts (.str (pyStrip (pyJoin nl2)))
            (t.type = .name || t.type = .number)

/-- Embedding of `serialize_utils.sanitize_token_string`: run the token loop
on `tokenize.generate_tokens(line)`; if anything raises, the `except
Exception` fallback returns `line.strip()`. -/
def sanitize_token_string (line : String) : SanitizeResult :=
  match sanitizeLoop (generate_tokens line) (.list []) false with
  | .ok (.list items) => .list items
  | .ok (.str s) => .str s
  | .error _ => .str (pyStrip line)

/-- An f-string interpolates a `SanitizeResult` with `str()`: the unjoined
list case renders as a Python list literal. -/
def sanitizeResultStr : SanitizeResult → String
  | .str s => s
  | .list items => pyRepr (.arr (items.map Json.str))

/-! ### file_utils -/

/-- `lib.system_variables.max_logfiles`, the fallback rotation ceiling. -/
def max_logfiles_default : Nat := 5

/-- The project root directory (`lib.system_variables.project_root`), kept
abstract as a fixed absolute path; path resolution is modelled textually. -/
def project_root : String := "/repo"

/-- Embedding of `file_utils.is_project_file`: empty/missing filenames are
rejected, otherwise the file must lie strictly below the project root
(`project_root in Path(filename).resolve().parents`). -/
def is_project_file (filename : String) : Bool :=
  if filename = "" then false
  else pyStartsWith filename (project_root ++ "/")

/-- Embedding of `file_utils.relative_path`: strip the project root from
paths below it (`Path(filepath).resolve().relative_to(project_root)`),
leave other paths as they are (the `ValueError` fallback), then delete every
occurrence of `".py"`. -/
def relative_path (filepath : String) : String :=
  pyReplace
    (if pyStartsWith filepath (project_root ++ "/") then
       filepath.drop (project_root.length + 1)
     else filepath) ".py" ""

/-- A log file in a log subdirectory: its name and its `st_mtime`. -/
structure LogFile where
  name : String
  mtime : Nat
deriving DecidableEq, Repr

/-- A directory entry under the logs base directory (`project_logs`): name,
whether it is a directory, and the files it contains. -/
structure DirEntry where
  name : String
  isDir : Bool
  files : List LogFile
deriving DecidableEq, Repr

/-- Modification-time order on log files (the `key=lambda f: f.stat().st_mtime`
sort key). -/
def mtimeLE (a b : LogFile) : Prop := a.mtime ≤ b.mtime

instance : DecidableRel mtimeLE := fun a b => Nat.decLe a.mtime b.mtime

instance : IsTotal LogFile mtimeLE := ⟨fun a b => Nat.le_total a.mtime b.mtime⟩

instance : IsTrans LogFile mtimeLE := ⟨fun _ _ _ => Nat.le_trans⟩

/-- The `log_files` list of one subdirectory: the `*.log` files sorted by
modification time, oldest first (`sorted(log_subdir.glob("*.log"),
key=lambda f: f.stat().st_mtime)`). -/
def sortedLogs (files : List LogFile) : List LogFile :=
  List.insertionSort mtimeLE (files.filter (fun f => pyEndsWith f.name ".log"))

/-- The files one loop iteration of `manage_logfiles` unlinks in one
subdirectory: with `num_to_remove = len(log_files) - max_logfiles` (an `int`,
possibly negative), the `num_to_remove` oldest files when it is positive and
none otherwise. -/
def manageSubdirDeleted (lg : LoggingCfg) (files : List LogFile) : List LogFile :=
  let log_files := sortedLogs files
  let num_to_remove : Int :=
    (log_files.length : Int) - (lg.max_logfiles.getD max_logfiles_default : Nat)
  if 0 < num_to_remove then log_files.take num_to_remove.toNat else []

/-- The outcome of a `manage_logfiles` run: per processed subdirectory the
files passed to `Path.unlink` (in order), and the Python return value —
the function is annotated `-> None` and has no `return` statement, so it
always returns `None`, never the deleted files. -/
structure ManageOutcome where
  perDir : List (String × List LogFile)
  retval : Option (List String)
deriving DecidableEq, Repr

/-- All unlinked files of an outcome, in deletion order. -/
def ManageOutcome.unlinked (out : ManageOutcome) : List LogFile :=
  (out.perDir.map (fun d => d.2)).flatten

/-- The directory loop of `manage_logfiles`: skip non-directories, and for
each directory subscript `configs["logging"]` (raising `KeyError` when the
key is absent) and unlink the excess oldest `*.log` files. -/
def manageLoop (configs : Configs) : List DirEntry → Except PyError (List (String × List LogFile))
  | [] => .ok []
  | d :: ds =>
    if d.isDir then
      match configs.logging with
      | none => .error (.keyError "logging")
      | some lg =>
        match manageLoop configs ds with
        | .error e => .error e
        | .ok rest => .ok ((d.name, manageSubdirDeleted lg d.files) :: rest)
    else manageLoop configs ds

/-- Embedding of `file_utils.manage_logfiles` over the listing of the logs
base directory: run the directory loop and return `None` (the model treats
each `unlink` as succeeding; a failing unlink only prints a warning). -/
def manage_logfiles (configs : Configs) (dirs : List DirEntry) :
    Except PyError ManageOutcome :=
  match manageLoop configs dirs with
  | .error e => .error e
  | .ok perDir => .ok ⟨perDir, none⟩

/-- Projection used to state facts about a completed `manage_logfiles` call at
concrete inputs. -/
def manageOutcomeOf (r : Except PyError ManageOutcome) : ManageOutcome :=
  match r with
  | .ok out => out
  | .error _ => ⟨[], none⟩

/-! ### trace_utils -/

/-- What `inspect.getframeinfo` returns for a frame: filename, current line
number, and the first line of source context (`none` models a `None`
`code_context`). -/
structure FrameInfo where
  filename : String
  lineno : Nat
  code_context : Option String
deriving Repr

/-- A frame's code object: `co_name` and `co_firstlineno`. -/
structure CodeInfo where
  co_name : String
  co_firstlineno : Nat
deriving DecidableEq, Repr

/-- The caller frame (`frame.f_back`) as `trace_events` inspects it: its
code name and its `inspect.getframeinfo` data. -/
structure CallerFrame where
  co_name : String
  info : FrameInfo
deriving Repr

/-- The frame handed to `trace_events`: its code object, its
`f_globals.get("__file__", "")` (`none` models an absent key), its caller,
its own `inspect.getframeinfo` data, and the declared positional arguments
with their current (JSON-serializable) values. -/
structure Frame where
  f_code : CodeInfo
  file : Option String
  f_back : Option CallerFrame
  info : FrameInfo
  args : List (String × Json)
deriving Repr

/-- The set of function names `trace_events` skips.  Note the second entry is
the dotted string `"log_utils.log_message"`, which is compared against
`frame.f_code.co_name` — a bare name that can never contain a dot. -/
def excluded_functions : List String := ["emit", "log_utils.log_message"]

/-- What the trace hook returned for this event: `None` (stop tracing into
this scope) or `trace_events` itself (continue tracing). -/
inductive TraceRet
  | noneRet
  | selfRet
deriving DecidableEq, Repr

/-- The `event == "call"` block of `trace_events` (inside its `try`): if a
caller frame exists, log the bare invocation line, then either the
module-level or the function-level detail line; the argument mapping is
round-tripped through `json.dumps(..., default=str)` / `json.loads` (the
identity on the JSON-serializable arguments modelled here).  Every
`log_message` call can raise, and the raise propagates to the block's
`except`. -/
def callBlock (configs : Configs) (frame : Frame) (filename : String) :
    Except PyError (List Effect) :=
  match frame.f_back with
  | none => .ok []
  | some caller =>
    let caller_filename := relative_path caller.info.filename
    let invoking_line :=
      match caller.info.code_context with
      | some line => sanitizeResultStr (sanitize_token_string line)
      | none => "Unknown"
    let message := "\n[CALL] " ++ caller_filename ++ " ( " ++ invoking_line ++ " )"
    match (if pyStrip message ≠ "" then
             log_message message "CALL" none false (some configs)
           else .ok []) with
    | .error e => .error e
    | .ok effs1 =>
      if caller.co_name = "<module>" then
        let caller_module :=
          if (pySplitSlash caller_filename).length = 1 then caller_filename
          else ((pySplitSlash caller_filename).getLast?).getD caller_filename
        let message2 := "[CALL] " ++ caller_module ++ "[" ++ toString caller.info.lineno ++
          "] ( " ++ invoking_line ++ " ) " ++ "-> " ++ relative_path filename ++
          " (" ++ frame.f_code.co_name ++ ")[" ++ toString frame.f_code.co_firstlineno ++ "]"
        match (if pyStrip message2 ≠ "" then
                 log_message message2 "CALL" none false (some configs)
               else .ok []) with
        | .error e => .error e
        | .ok effs2 => .ok (effs1 ++ effs2)
      else
        let arg_list := Json.obj frame.args
        let message2 := "[CALL] " ++ caller_filename ++ " (" ++ caller.co_name ++ ")[" ++
          toString caller.info.lineno ++ "] " ++ "-> " ++ relative_path frame.info.filename ++
          " (" ++ frame.f_code.co_name ++ ")[" ++ toString frame.info.lineno ++ "]"
        match (if pyStrip message2 ≠ "" then
                 log_message message2 "CALL" (some (.dict arg_list)) false (some configs)
               else .ok []) with
        | .error e => .error e
        | .ok effs2 => .ok (effs1 ++ effs2)

/-- The `event == "return"` block of `trace_events` (inside its `try`): build
the `[RETURN]` line from the frame info and the sanitized returning source
line, and log it with the `safe_serialize`d return value as payload.  The
modelled return values carry no `__dict__`, so the `vars(arg)` override
branch is not taken. -/
def returnBlock (configs : Configs) (frame : Frame) (filename : String)
    (arg : PyValue) : Except PyError (List Effect) :=
  let return_value := safe_serialize arg false
  let return_filename :=
    if frame.f_code.co_name = "<module>" then relative_path (frame.file.getD "")
    else relative_path filename
  let return_lineno := frame.info.lineno
  let return_line :=
    match frame.info.code_context with
    | some line => sanitizeResultStr (sanitize_token_string line)
    | none => sanitizeResultStr (sanitize_token_string "Unknown")
  let arg_type := pyTypeName arg
  let message := "[RETURN] " ++ return_filename ++ "[" ++ toString return_lineno ++
    "] ( " ++ return_line ++ " ) " ++ "-> RETURN VALUE (Type: " ++ arg_type ++ "):"
  if pyStrip message ≠ "" then
    log_message message "RETURN" (some (.str return_value)) false (some configs)
  else .ok []

/-- Embedding of the `trace_events` closure produced by `trace_all(configs)`.

Functions whose `co_name` is in `excluded_functions` are skipped; frames
with no `__file__` or outside the project are skipped.  The call / return
blocks run inside `try ... except Exception as e: logger.error(...)`, but
`trace_utils` only declares `global logger` and never binds it (and no other
module assigns `trace_utils.logger`), so the handler itself raises
`NameError: logger`, which propagates out of the hook into the traced
application code. -/
def trace_events (configs : Configs) (frame : Frame) (event : String)
    (arg : PyValue) : Except PyError (List Effect × TraceRet) :=
  if frame.f_code.co_name ∈ excluded_functions then .ok ([], .noneRet)
  else
    let filename := frame.file.getD ""
    if filename = "" then .ok ([], .noneRet)
    else if !is_project_file filename then .ok ([], .noneRet)
    else if event = "call" then
      match callBlock configs frame filename with
      | .ok effs => .ok (effs, .selfRet)
      | .error _ => .error (.nameError "logger")
    else if event = "return" then
      match returnBlock configs frame filename arg with
      | .ok effs => .ok (effs, .selfRet)
      | .error _ => .error (.nameError "logger")
    else .ok ([], .selfRet)

/-- An installed trace hook: the `trace_events` closure together with the
`configs` it captured. -/
structure TraceHook where
  configs : Configs
deriving DecidableEq, Repr

/-- Embedding of `trace_utils.start_tracing`, acting on the interpreter's
trace-hook cell (`sys.gettrace` / `sys.settrace`).

`configs = configs or CONFIGS` raises `NameError` when `configs` is missing,
because `trace_utils` defines no module-global `CONFIGS`.  A configs without
a `"logging"` key only prints a warning and returns a no-op lambda without
installing anything.  Otherwise the hook is installed when
`configs["tracing"].get("enable", True)` is truthy — note the `True`
default: a missing `enable` key still installs — and `sys.gettrace()` is
`None`; the `configs["tracing"]` subscript raises `KeyError` when the
`"tracing"` key is absent, before `sys.gettrace()` is consulted. -/
def start_tracing (configs : Option Configs) (hook : Option TraceHook) :
    Except PyError (Option TraceHook) :=
  match configs with
  | none => .error (.nameError "CONFIGS")
  | some cfg =>
    match cfg.logging with
    | none => .ok hook
    | some _ =>
      match cfg.tracing with
      | none => .error (.keyError "tracing")
      | some tr =>
        if tr.enable.getD true && hook.isNone then .ok (some ⟨cfg⟩)
        else .ok hook

/-- The trace-hook state after one `start_tracing` call: an exception escapes
before `sys.settrace` ever runs, so on error the hook is unchanged. -/
def startTracingState (hook : Option TraceHook) (configs : Option Configs) :
    Option TraceHook :=
  match start_tracing configs hook with
  | .ok h => h
  | .error _ => hook

/-! ### Claim-statement helpers and concrete fixtures -/

/-- The effects of a completed logging call (`[]` when the call raised before
reaching a sink, which is exactly when Python writes nothing). -/
def effectsOf : Except PyError (List Effect) → List Effect
  | .ok effs => effs
  | .error _ => []

/-- The flag `configs["logging"].get("enable", False)` as the spec reads it
(`false` when the `logging` key itself is absent). -/
def loggingEnabled (cfg : Configs) : Bool :=
  (cfg.logging.map (fun lg => lg.enable.getD false)).getD false

/-- The flag `configs["tracing"].get("enable", False)` as the spec reads it
(`false` when the `tracing` key itself is absent). -/
def tracingEnabled (cfg : Configs) : Bool :=
  (cfg.tracing.map (fun tr => tr.enable.getD false)).getD false

/-- A logging section with logging disabled. -/
def lgDisabled : LoggingCfg := ⟨some "logs", some "module", some false, none⟩

/-- A logging section with logging enabled. -/
def lgEnabled : LoggingCfg := ⟨some "logs", some "module", some true, none⟩

/-- A logging section with `max_logfiles = 1`. -/
def lgMax1 : LoggingCfg := ⟨some "logs", some "module", some true, some 1⟩

/-- A color table with a `RESET` entry and one category color. -/
def colorsBase : List (String × String) := [("RESET", "\x1b[0m"), ("CALL", "\x1b[36m")]

/-- Logging on, tracing off: the file-sink-only configuration. -/
def cfgFileOnly : Configs := ⟨some lgEnabled, some ⟨some false⟩, some colorsBase⟩

/-- Logging off, tracing on: the console-sink configuration. -/
def cfgConsoleOnly : Configs := ⟨some lgDisabled, some ⟨some true⟩, some colorsBase⟩

/-- A configs dictionary without a `"tracing"` key. -/
def cfgNoTracingKey : Configs := ⟨some lgDisabled, none, some colorsBase⟩

/-- A configs dictionary whose `tracing` section exists but has no `enable`
key. -/
def cfgEnableUnset : Configs := ⟨some lgDisabled, some ⟨none⟩, some colorsBase⟩

/-- A configuration with `max_logfiles = 1` for the rotation claims. -/
def cfgMax1 : Configs := ⟨some lgMax1, some ⟨some false⟩, some colorsBase⟩

/-- Three `.log` files with distinct modification times. -/
def logsABC : List LogFile := [⟨"a.log", 30⟩, ⟨"b.log", 10⟩, ⟨"c.log", 20⟩]

/-- A project-file frame for an ordinary application function with an
ordinary function caller. -/
def frameApp : Frame :=
  ⟨⟨"do_work", 10⟩, some "/repo/packages/mod.py",
   some ⟨"caller_fn", ⟨"/repo/run.py", 5, some "do_work()\n"⟩⟩,
   ⟨"/repo/packages/mod.py", 12, some "def do_work():\n"⟩, []⟩

/-- A frame for a function named `emit` (a member of the exclusion set). -/
def frameEmit : Frame :=
  ⟨⟨"emit", 3⟩, some "/repo/packages/appflow_tracer/tracing.py", none,
   ⟨"/repo/packages/appflow_tracer/tracing.py", 3, none⟩, []⟩

/-- A frame for `log_utils.log_message` itself — the structured logger's
log-emission entry point, whose `co_name` is the bare string
`"log_message"` — invoked from project code. -/
def frameLogMessage : Frame :=
  ⟨⟨"log_message", 17⟩, some "/repo/packages/appflow_tracer/lib/log_utils.py",
   some ⟨"worker", ⟨"/repo/scripts/app.py", 12, some "log_utils.log_message(msg)\n"⟩⟩,
   ⟨"/repo/packages/appflow_tracer/lib/log_utils.py", 17, some "def log_message(\n"⟩,
   [("message", .str "hi")]⟩

/-- `hasFileSink` distributes over append. -/
theorem hasFileSink_append (a b : List Effect) :
    hasFileSink (a ++ b) = (hasFileSink a || hasFileSink b) := by
  simp [hasFileSink, List.any_append]

/-- `hasConsoleSink` distributes over append. -/
theorem hasConsoleSink_append (a b : List Effect) :
    hasConsoleSink (a ++ b) = (hasConsoleSink a || hasConsoleSink b) := by
  simp [hasConsoleSink, List.any_append]

/-- A successful `output_console` call writes to the console sink and never to
the file sink. -/
theorem output_console_effects (message category : String)
    (payload : Option JsonPayload) (cfg : Configs) (effs : List Effect)
    (h : output_console message category payload cfg = .ok effs) :
    hasConsoleSink effs = true ∧ hasFileSink effs = false := by
  unfold output_console at h
  split at h
  · exact absurd h (by simp)
  · split at h
    · exact absurd h (by simp)
    · cases payload with
      | none =>
        simp only [Except.ok.injEq] at h
        subst h; simp [hasConsoleSink, hasFileSink]
      | some pl =>
        cases pl with
        | inl j =>
          simp only [Except.ok.injEq] at h
          subst h; simp [hasConsoleSink, hasFileSink]
        | inr s =>
          simp only [Except.ok.injEq] at h
          subst h; simp [hasConsoleSink, hasFileSink]

/-- The effects of a completed trace event (`[]` when the hook raised). -/
def traceEffectsOf : Except PyError (List Effect × TraceRet) → List Effect
  | .ok r => r.1
  | .error _ => []

/-! ### Claims -/

/-- C1: the claim says any exception raised while formatting or logging a
CALL/RETURN event is caught in the handler and logged through the logger's
own error channel, never propagating into traced code.  In fact the
`except Exception` handler calls `logger.error(...)`, but `trace_utils`
never binds its module-global `logger`, so the handler raises
`NameError: logger` which escapes the hook: here a CALL event over a
configs without a `"tracing"` key (the inner `log_message` raises
`KeyError`) makes `trace_events` itself raise. -/
theorem trace_events_handler_nameerror_escapes :
    trace_events cfgNoTracingKey frameApp "call" (.json .null) =
      .error (.nameError "logger") := by decide

/-- C4: evaluating `sanitize_token_string` at the four documented inputs.
Only the second and fourth match the spec: the loop rebinds `new_line` to a
string, so the second token raises `AttributeError` and the fallback
returns the whole stripped line (comment included), and a leading comment
`break`s with the unjoined empty list `[]` rather than `""`. -/
theorem sanitize_token_string_documented_examples :
    sanitize_token_string "some_code()  # this is a comment" =
      .str "some_code()  # this is a comment" ∧
    sanitize_token_string "   another_line   " = .str "another_line" ∧
    sanitize_token_string "# full line comment" = .list [] ∧
    sanitize_token_string "" = .str "" := by decide

/-- C8: the claim says `log_message` never raises and degrades to a fallback
or warn-once no-op on a missing/malformed `configs`.  In fact a missing
`configs` raises `NameError` (the module-global `CONFIGS` fallback does not
exist in `log_utils`) and a malformed one raises `KeyError`. -/
theorem log_message_missing_configs_raises :
    log_message "hello" "INFO" none false none =
      .error (.nameError "CONFIGS") ∧
    log_message "hello" "INFO" none false (some ⟨none, none, none⟩) =
      .error (.keyError "logging") := by decide

/-- C3 counterexample: a value whose top-level encode raises does not yield
the `"[Unserializable data]"` sentinel when `verbose` is true — the
except-branch returns `str(data)` instead. -/
theorem safe_serialize_verbose_failure_not_sentinel :
    (∃ e, jsonDumpsPy (PyValue.unser "[[...]]") false = .error e) ∧
    safe_serialize (PyValue.unser "[[...]]") true ≠ "[Unserializable data]" := by
  refine ⟨⟨.valueError "Circular reference detected", rfl⟩, ?_⟩
  decide

/-- C3 amended: when the top-level encode raises, `safe_serialize` still
returns (it is total); whether the encode raises is independent of
`verbose`, but the failure string is the sentinel only for
`verbose = false` — `verbose = true` returns `str(data)`. -/
theorem safe_serialize_failure_branch (data : PyValue) (verbose : Bool)
    (h : ∃ e, jsonDumpsPy data false = .error e) :
    safe_serialize data verbose =
      (if verbose then pyStrOf data else "[Unserializable data]") ∧
    (∃ e, jsonDumpsPy data verbose = .error e) := by
  obtain ⟨e, he⟩ := h
  cases data with
  | str s => simp [jsonDumpsPy] at he
  | json j => simp [jsonDumpsPy] at he
  | unser r =>
    refine ⟨?_, ⟨.valueError "Circular reference detected", rfl⟩⟩
    cases verbose <;> simp [safe_serialize, jsonDumpsPy, pyStrOf]

/-- C3 witness: the amended failure-branch theorem at the concrete circular
value. -/
theorem safe_serialize_failure_branch_witness :
    safe_serialize (PyValue.unser "[[...]]") true =
      (if true then pyStrOf (PyValue.unser "[[...]]") else "[Unserializable data]") ∧
    (∃ e, jsonDumpsPy (PyValue.unser "[[...]]") true = .error e) :=
  safe_serialize_failure_branch (PyValue.unser "[[...]]") true
    ⟨.valueError "Circular reference detected", rfl⟩

/-- C9 counterexample: a run that deletes two log files still returns `None`,
not the list of removed files the claim promises. -/
theorem manage_logfiles_returns_none_despite_deletions :
    (manageOutcomeOf (manage_logfiles cfgMax1 [⟨"grp", true, logsABC⟩])).unlinked ≠ [] ∧
    (manageOutcomeOf (manage_logfiles cfgMax1 [⟨"grp", true, logsABC⟩])).retval = none := by
  decide

/-- C9 amended: `manage_logfiles` always returns `None` (it has no `return`
statement and is annotated `-> None`); the removed files are observable only
through its unlink side effects, never through the return value. -/
theorem manage_logfiles_retval_none (configs : Configs) (dirs : List DirEntry)
    (out : ManageOutcome) (h : manage_logfiles configs dirs = .ok out) :
    out.retval = none := by
  unfold manage_logfiles at h
  cases hm : manageLoop configs dirs with
  | error e => rw [hm] at h; exact absurd h (by simp)
  | ok perDir =>
    rw [hm] at h
    simp only [Except.ok.injEq] at h
    subst h; rfl

/-- C9 witness: the amended return-value theorem at a concrete deleting run. -/
theorem manage_logfiles_retval_none_witness :
    (ManageOutcome.mk [("grp", [⟨"b.log", 10⟩, ⟨"c.log", 20⟩])] none).retval = none :=
  manage_logfiles_retval_none cfgMax1 [⟨"grp", true, logsABC⟩] _ rfl

/-- C10: a whitespace-only message writes to neither sink, regardless of the
logging and tracing flags: both sink stanzas are guarded by
`if message.strip():`. -/
theorem log_message_whitespace_noop
    (message category : String) (json_data : Option JsonData)
    (serialize_json : Bool) (cfg : Configs) (lg : LoggingCfg) (tr : TracingCfg)
    (hlg : cfg.logging = some lg) (hpkg : ∃ p, lg.package_name = some p)
    (hmod : ∃ m, lg.module_name = some m) (htr : cfg.tracing = some tr)
    (hm : pyStrip message = "") :
    log_message message category json_data serialize_json (some cfg) = .ok [] := by
  obtain ⟨p, hp⟩ := hpkg
  obtain ⟨m, hmm⟩ := hmod
  simp [log_message, hlg, hp, hmm, htr, hm]

/-- C10 witness: the whitespace no-op theorem at a concrete whitespace
message under the file-only configuration. -/
theorem log_message_whitespace_noop_witness :
    log_message "  \t " "WARNING" (some (.dict (.obj [("k", .num 1)]))) false
      (some cfgFileOnly) = .ok [] :=
  log_message_whitespace_noop "  \t " "WARNING" (some (.dict (.obj [("k", .num 1)])))
    false cfgFileOnly lgEnabled ⟨some false⟩ rfl ⟨"logs", rfl⟩ ⟨"module", rfl⟩ rfl
    (by decide)

/-- C2 counterexample: with logging enabled, tracing disabled and a
whitespace-only message, the file sink is not written although the claim's
biconditional requires it to be. -/
theorem log_message_sink_iff_fails_on_whitespace :
    ¬ ((hasFileSink (effectsOf (log_message " " "INFO" none false (some cfgFileOnly))) = true) ↔
        (loggingEnabled cfgFileOnly = true ∧ tracingEnabled cfgFileOnly = false)) := by
  decide

/-- C6 counterexample: a configs whose `tracing` section has no `enable` key
still gets the hook installed (the code defaults a missing `enable` to
`True`), refuting "installs only when `configs.tracing.enable` is true". -/
theorem start_tracing_installs_with_enable_unset :
    start_tracing (some cfgEnableUnset) none = .ok (some ⟨cfgEnableUnset⟩) ∧
    cfgEnableUnset.tracing.bind TracingCfg.enable = none := by decide

/-- C7: the exclusion set is compared against the bare `co_name`; its entry
`"log_utils.log_message"` can never match one, so while a function named
`emit` is indeed never logged, the structured logger's emission entry point
`log_message` is not in the effective exclusion set and does produce a
logged CALL record when invoked from project code under the hook. -/
theorem trace_events_exclusion_matches_co_name_only :
    trace_events cfgConsoleOnly frameEmit "call" (.json .null) = .ok ([], .noneRet) ∧
    frameLogMessage.f_code.co_name ∉ excluded_functions ∧
    hasConsoleSink (traceEffectsOf
      (trace_events cfgConsoleOnly frameLogMessage "call" (.json .null))) = true ∧
    (trace_events cfgConsoleOnly frameLogMessage "call" (.json .null)).isOk = true := by
  refine ⟨by decide, by decide, by decide, by decide⟩

/-- C6 amended: `start_tracing` installs the hook exactly when the configs
have a `logging` key and a `tracing` key whose `enable` is true *or unset*
(the code defaults a missing `enable` to `True`) and no hook is installed;
once a hook is active, no later sequence of `start_tracing` calls changes
it, so at most one hook — the first successfully installed one — is ever
active. -/
theorem start_tracing_install_conditions :
    (∀ cfg : Configs,
      start_tracing (some cfg) none = .ok (some ⟨cfg⟩) ↔
        (cfg.logging.isSome = true ∧
         ∃ tr, cfg.tracing = some tr ∧ tr.enable.getD true = true)) ∧
    (∀ (configs : Option Configs) (h : TraceHook),
      startTracingState (some h) configs = some h) ∧
    (∀ (calls : List (Option Configs)) (h : TraceHook),
      calls.foldl startTracingState (some h) = some h) := by
  have hstep : ∀ (configs : Option Configs) (h : TraceHook),
      startTracingState (some h) configs = some h := by
    intro configs h
    cases configs with
    | none => rfl
    | some cfg =>
      cases hlg : cfg.logging with
      | none => simp [startTracingState, start_tracing, hlg]
      | some lg =>
        cases htr : cfg.tracing with
        | none => simp [startTracingState, start_tracing, hlg, htr]
        | some tr => simp [startTracingState, start_tracing, hlg, htr]
  refine ⟨?_, hstep, ?_⟩
  · intro cfg
    cases hlg : cfg.logging with
    | none => simp [start_tracing, hlg]
    | some lg =>
      cases htr : cfg.tracing with
      | none => simp [start_tracing, hlg, htr]
      | some tr =>
        by_cases he : tr.enable.getD true = true
        · simp [start_tracing, hlg, htr, he]
        · simp [start_tracing, hlg, htr, he]
  · intro calls h
    induction calls generalizing h with
    | nil => rfl
    | cons c cs ih => rw [List.foldl_cons, hstep c h]; exact ih h

/-- C6 witness: the install-condition biconditional at the concrete
console-tracing configuration. -/
theorem start_tracing_install_conditions_witness :
    start_tracing (some cfgConsoleOnly) none = .ok (some ⟨cfgConsoleOnly⟩) ↔
      (cfgConsoleOnly.logging.isSome = true ∧
       ∃ tr, cfgConsoleOnly.tracing = some tr ∧ tr.enable.getD true = true) :=
  start_tracing_install_conditions.1 cfgConsoleOnly

/-- C5: per log subdirectory, with rotation ceiling `M` from the
configuration's `max_logfiles`: when the subdirectory holds more than `M`
files matching `*.log`, exactly `count - M` files are deleted, they are the
oldest by modification time (every deleted file's mtime is at most every
kept file's mtime), and nothing else is deleted (deleted and kept files
together are exactly the `*.log` files); when `count ≤ M` nothing is
deleted.  The last conjunct ties the per-subdirectory deletion set to a
`manage_logfiles` run. -/
theorem manage_logfiles_rotation (lg : LoggingCfg) (M : Nat)
    (hM : lg.max_logfiles = some M) (files : List LogFile) :
    ((sortedLogs files).length ≤ M → manageSubdirDeleted lg files = []) ∧
    (M < (sortedLogs files).length →
      (manageSubdirDeleted lg files).length = (sortedLogs files).length - M ∧
      manageSubdirDeleted lg files ++
        (sortedLogs files).drop ((sortedLogs files).length - M) = sortedLogs files ∧
      (∀ a ∈ manageSubdirDeleted lg files,
        ∀ b ∈ (sortedLogs files).drop ((sortedLogs files).length - M),
          a.mtime ≤ b.mtime)) ∧
    (sortedLogs files).Perm (files.filter (fun f => pyEndsWith f.name ".log")) ∧
    (∀ (cfg : Configs) (dname : String), cfg.logging = some lg →
      manage_logfiles cfg [⟨dname, true, files⟩] =
        .ok ⟨[(dname, manageSubdirDeleted lg files)], none⟩) := by
  have hunfold : manageSubdirDeleted lg files =
      if 0 < ((sortedLogs files).length : Int) - (M : Int) then
        (sortedLogs files).take (((sortedLogs files).length : Int) - (M : Int)).toNat
      else [] := by
    simp [manageSubdirDeleted, hM]
  refine ⟨?_, ?_, ?_, ?_⟩
  · intro hle
    rw [hunfold, if_neg]
    omega
  · intro hlt
    have hcond : (0 : Int) < ((sortedLogs files).length : Int) - (M : Int) := by omega
    have htn : (((sortedLogs files).length : Int) - (M : Int)).toNat =
        (sortedLogs files).length - M := by omega
    rw [hunfold, if_pos hcond, htn]
    refine ⟨?_, List.take_append_drop _ _, ?_⟩
    · rw [List.length_take]
      omega
    · have hs : (sortedLogs files).Pairwise mtimeLE := by
        simpa [sortedLogs] using
          List.sorted_insertionSort mtimeLE
            (files.filter (fun f => pyEndsWith f.name ".log"))
      have hp : (((sortedLogs files).take ((sortedLogs files).length - M)) ++
          ((sortedLogs files).drop ((sortedLogs files).length - M))).Pairwise mtimeLE := by
        rw [List.take_append_drop]
        exact hs
      exact (List.pairwise_append.mp hp).2.2
  · simpa [sortedLogs] using
      List.perm_insertionSort mtimeLE
        (files.filter (fun f => pyEndsWith f.name ".log"))
  · intro cfg dname hcfg
    simp [manage_logfiles, manageLoop, hcfg]

/-- C5 witness: the rotation theorem at a concrete three-file group with
ceiling one. -/
theorem manage_logfiles_rotation_witness :
    1 < (sortedLogs logsABC).length ∧
    (manageSubdirDeleted lgMax1 logsABC).length = (sortedLogs logsABC).length - 1 :=
  ⟨by decide, ((manage_logfiles_rotation lgMax1 1 rfl logsABC).2.1 (by decide)).1⟩

/-- C2 amended: for a completed `log_message` call, the file sink is written
iff `logging.enable` is true, `tracing.enable` is false *and the message has
non-whitespace content*; the console sink is written iff `tracing.enable`
is true *and the message has non-whitespace content*; with both flags false
nothing is written.  (The original claim's biconditionals omitted the
`message.strip()` guard.) -/
theorem log_message_sink_conditions (message category : String)
    (json_data : Option JsonData) (serialize_json : Bool) (cfg : Configs)
    (effs : List Effect)
    (h : log_message message category json_data serialize_json (some cfg) = .ok effs) :
    (hasFileSink effs = true ↔
      (loggingEnabled cfg = true ∧ tracingEnabled cfg = false ∧ pyStrip message ≠ "")) ∧
    (hasConsoleSink effs = true ↔
      (tracingEnabled cfg = true ∧ pyStrip message ≠ "")) ∧
    ((loggingEnabled cfg = false ∧ tracingEnabled cfg = false) → effs = []) := by
  obtain ⟨logging, tracing, colors⟩ := cfg
  cases logging with
  | none => exact absurd h (by simp [log_message])
  | some lg =>
    obtain ⟨pn, mn, en, mx⟩ := lg
    cases pn with
    | none => exact absurd h (by simp [log_message])
    | some p =>
      cases mn with
      | none => exact absurd h (by simp [log_message])
      | some m =>
        cases tracing with
        | none =>
          rcases en with _ | b
          · exact absurd h (by simp [log_message])
          · cases b
            · exact absurd h (by simp [log_message])
            · exact absurd h (by simp [log_message])
        | some tr =>
          obtain ⟨te⟩ := tr
          by_cases hT : te.getD false = true
          · by_cases hS : pyStrip message = ""
            · have he : effs = [] := by
                simp [log_message, hT, hS] at h
                exact h
              subst he
              refine ⟨by simp [hasFileSink, tracingEnabled, hT],
                      by simp [hasConsoleSink, hS],
                      fun _ => rfl⟩
            · simp [log_message, hT, hS] at h
              split at h
              · exact absurd h (by simp)
              · next c heq =>
                have hc := output_console_effects _ _ _ _ _ heq
                simp only [List.nil_append, Except.ok.injEq] at h
                subst h
                refine ⟨?_, ?_, ?_⟩
                · simp [hc.2, tracingEnabled, hT]
                · simp [hc.1, tracingEnabled, hT, hS]
                · rintro ⟨-, hbad⟩
                  rw [tracingEnabled] at hbad
                  simp [hT] at hbad
          · have hT' : te.getD false = false := by
              cases hx : te.getD false
              · rfl
              · exact absurd hx hT
            by_cases hL : en.getD false = true
            · by_cases hS : pyStrip message = ""
              · have he : effs = [] := by
                  simp [log_message, hT', hL, hS] at h
                  exact h
                subst he
                refine ⟨by simp [hasFileSink, hS], by simp [hasConsoleSink, hS],
                        fun _ => rfl⟩
              · have he : effs = [output_logfile message
                    (logPayload json_data serialize_json)] := by
                  simp [log_message, hT', hL, hS] at h
                  exact h.symm
                subst he
                refine ⟨?_, ?_, ?_⟩
                · simp [hasFileSink, output_logfile, loggingEnabled, tracingEnabled,
                        hL, hT', hS]
                · simp [hasConsoleSink, output_logfile, tracingEnabled, hT']
                · rintro ⟨hbad, -⟩
                  rw [loggingEnabled] at hbad
                  simp [hL] at hbad
            · have hL' : en.getD false = false := by
                cases hx : en.getD false
                · rfl
                · exact absurd hx hL
              have he : effs = [] := by
                simp [log_message, hT', hL'] at h
                exact h
              subst he
              refine ⟨by simp [hasFileSink, loggingEnabled, hL'],
                      by simp [hasConsoleSink, tracingEnabled, hT'],
                      fun _ => rfl⟩

/-- C2 witness: the amended sink-condition theorem at a concrete call that
writes the file sink only. -/
theorem log_message_sink_conditions_witness :
    (hasFileSink [Effect.fileSink "hi"] = true ↔
      (loggingEnabled cfgFileOnly = true ∧ tracingEnabled cfgFileOnly = false ∧
       pyStrip "hi" ≠ "")) ∧
    (hasConsoleSink [Effect.fileSink "hi"] = true ↔
      (tracingEnabled cfgFileOnly = true ∧ pyStrip "hi" ≠ "")) ∧
    ((loggingEnabled cfgFileOnly = false ∧ tracingEnabled cfgFileOnly = false) →
      [Effect.fileSink "hi"] = []) :=
  log_message_sink_conditions "hi" "INFO" none false cfgFileOnly
    [Effect.fileSink "hi"] (by decide)

end AzProfiles
